import Mathlib

/-!
Verification of the Telegram MCP server (`src/telegram/index.ts`).

The server exposes two tools (`telegram_send_message`,
`telegram_set_message_reaction`).  The pure part of the code — JSON
serialization of responses and errors, construction of the outbound
form payloads, and the call-tool dispatch/catch logic — is embedded
below as executable Lean definitions; the effectful HTTP calls made by
`TelegramClient` are abstracted as an oracle (`TelegramApi`) returning
either a parsed JSON response or a thrown value.
-/

/-- A model of a JavaScript JSON value.  Numbers are restricted to
integers, which covers every numeric value this program serializes. -/
inductive Json where
  | null : Json
  | bool (b : Bool) : Json
  | num (n : Int) : Json
  | str (s : String) : Json
  | arr (elems : List Json) : Json
  | obj (fields : List (String × Json)) : Json
deriving Repr

/-- One hexadecimal digit, lowercase, as produced by `JSON.stringify`
for control-character escapes. -/
def hexDigit (n : Nat) : String :=
  if n = 0 then "0" else if n = 1 then "1" else if n = 2 then "2"
  else if n = 3 then "3" else if n = 4 then "4" else if n = 5 then "5"
  else if n = 6 then "6" else if n = 7 then "7" else if n = 8 then "8"
  else if n = 9 then "9" else if n = 10 then "a" else if n = 11 then "b"
  else if n = 12 then "c" else if n = 13 then "d" else if n = 14 then "e"
  else "f"

/-- Escape a single character the way `JSON.stringify` escapes string
contents. -/
def jsonEscapeChar (c : Char) : String :=
  if c = '"' then "\\\""
  else if c = '\\' then "\\\\"
  else if c = '\n' then "\\n"
  else if c = '\r' then "\\r"
  else if c = '\t' then "\\t"
  else if c.toNat = 8 then "\\b"
  else if c.toNat = 12 then "\\f"
  else if c.toNat < 32 then "\\u00" ++ hexDigit (c.toNat / 16) ++ hexDigit (c.toNat % 16)
  else String.singleton c

/-- A JSON string literal: the escaped contents between double quotes,
as `JSON.stringify` renders a string. -/
def jsonQuote (s : String) : String :=
  "\"" ++ String.join (s.data.map jsonEscapeChar) ++ "\""

mutual

/-- `JSON.stringify` on the `Json` model: object fields in insertion
order, no added whitespace. -/
def Json.stringify : Json → String
  | Json.null => "null"
  | Json.bool true => "true"
  | Json.bool false => "false"
  | Json.num n => toString n
  | Json.str s => jsonQuote s
  | Json.arr xs => "[" ++ stringifyElems xs ++ "]"
  | Json.obj fs => "\x7b" ++ stringifyFields fs ++ "\x7d"

/-- Comma-separated serialization of array elements. -/
def stringifyElems : List Json → String
  | [] => ""
  | [x] => Json.stringify x
  | x :: y :: rest => Json.stringify x ++ "," ++ stringifyElems (y :: rest)

/-- Comma-separated serialization of object fields. -/
def stringifyFields : List (String × Json) → String
  | [] => ""
  | [(k, v)] => jsonQuote k ++ ":" ++ Json.stringify v
  | (k, v) :: y :: rest =>
      jsonQuote k ++ ":" ++ Json.stringify v ++ "," ++ stringifyFields (y :: rest)

end

/-- Field lookup in a JSON object (`none` on non-objects and missing
keys). -/
def Json.getField : Json → String → Option Json
  | Json.obj fs, k => (fs.find? (fun p => p.1 == k)).map Prod.snd
  | _, _ => none

/-- The `parse_mode` union type of `SendMessageArguments`
(`"MarkdownV2" | "HTML"`). -/
inductive ParseMode where
  | markdownV2 : ParseMode
  | html : ParseMode
deriving DecidableEq, Repr

/-- The string value a `ParseMode` denotes in the TypeScript union. -/
def ParseMode.toString : ParseMode → String
  | ParseMode.markdownV2 => "MarkdownV2"
  | ParseMode.html => "HTML"

/-- The `ReactionTypeEmoji` interface: the `type` field is the literal
tag `"emoji"`, so only the `emoji` payload is data.  The permitted
emoji set `REACTION_EMOJIS` is imported from `./types.js`, a file not
among the available sources, so the emoji is left an unconstrained
string here. -/
structure ReactionTypeEmoji where
  emoji : String
deriving DecidableEq, Repr

/-- The JSON object a `ReactionTypeEmoji` denotes: fields in interface
declaration order, `type` then `emoji`. -/
def ReactionTypeEmoji.toJson (r : ReactionTypeEmoji) : Json :=
  Json.obj [("type", Json.str "emoji"), ("emoji", Json.str r.emoji)]

/-- JavaScript truthiness of an optional boolean: only the value
`true` is truthy; `false` and `undefined` are falsy. -/
def isTruthy : Option Bool → Bool
  | some true => true
  | _ => false

namespace TelegramClient

/-- The outbound form payload built by `TelegramClient.sendMessage`
(lines 103–126): `URLSearchParams` is modelled as the ordered list of
key/value pairs it holds.  The HTTP POST and JSON parsing that follow
are external effects, abstracted by `TelegramApi`. -/
def sendMessage (chat_id : String) (text : String)
    (parseMode : Option ParseMode) : List (String × String) :=
  let params := [("chat_id", chat_id), ("text", text)]
  match parseMode with
  | some pm => params ++ [("parse_mode", pm.toString)]
  | none => params

/-- The outbound form payload built by
`TelegramClient.setMessageReaction` (lines 128–150): `chat_id` and the
stringified `message_id` always; `reaction`, when truthy, serialized
as the JSON of an object wrapping the reaction; `is_big`
appended only when truthy, with the value of the ternary
`is_big ? "True" : "False"`. -/
def setMessageReaction (chat_id : String) (message_id : Int)
    (reaction : Option ReactionTypeEmoji) (is_big : Option Bool) :
    List (String × String) :=
  let params := [("chat_id", chat_id), ("message_id", toString message_id)]
  let params :=
    match reaction with
    | some r => params ++ [("reaction", Json.stringify (Json.obj [("reaction", r.toJson)]))]
    | none => params
  if isTruthy is_big then
    params ++ [("is_big", if isTruthy is_big then "True" else "False")]
  else
    params

end TelegramClient

/-- A value thrown by JavaScript code: either an `Error` instance
(carrying its `message`) or any other value (carrying its
`String(...)` rendering), matching the
`error instanceof Error ? error.message : String(error)` distinction
at line 223. -/
inductive Thrown where
  | error (message : String) : Thrown
  | other (asString : String) : Thrown
deriving DecidableEq, Repr

/-- The string the catch block extracts from a thrown value. -/
def Thrown.toMessage : Thrown → String
  | Thrown.error m => m
  | Thrown.other s => s

/-- The call-tool argument bag after the unchecked
`as unknown as ...` casts: every field the two handlers read, each
possibly `undefined`.  The casts perform no runtime validation, so a
field may be absent regardless of the requested tool. -/
structure ArgBag where
  chat_id : Option String := none
  text : Option String := none
  parse_mode : Option ParseMode := none
  message_id : Option Int := none
  reaction : Option ReactionTypeEmoji := none
  is_big : Option Bool := none
deriving Repr

/-- The `request.params` of a call-tool request: the tool name and the
optional argument bag. -/
structure CallToolParams where
  name : String
  arguments : Option ArgBag

/-- One content block of a tool response (`{type, text}`). -/
structure TextContent where
  type : String
  text : String
deriving DecidableEq, Repr

/-- The tool-response envelope (`{content: [...]}`). -/
structure CallToolResult where
  content : List TextContent
deriving DecidableEq, Repr

/-- Oracle for the effectful `TelegramClient` methods: each call site
either resolves to a parsed JSON response or throws (network failure,
non-JSON body, remote rejection).  The arguments mirror the call sites
at lines 189–193 and 202–207, where each field read off the cast bag
may be `undefined`. -/
structure TelegramApi where
  sendMessage : Option String → Option String → Option ParseMode → Except Thrown Json
  setMessageReaction :
    Option String → Option Int → Option ReactionTypeEmoji → Option Bool → Except Thrown Json

/-- The `try` body of the call-tool handler (lines 180–215): the
missing-arguments check, then the `switch` on the tool name, with the
default case throwing the unknown-tool error.  The successful branches
return the API response to be wrapped by the caller. -/
def callToolBody (api : TelegramApi) (req : CallToolParams) : Except Thrown Json :=
  match req.arguments with
  | none => Except.error (Thrown.error "No arguments provided")
  | some args =>
    if req.name = "telegram_send_message" then
      api.sendMessage args.chat_id args.text args.parse_mode
    else if req.name = "telegram_set_message_reaction" then
      api.setMessageReaction args.chat_id args.message_id args.reaction args.is_big
    else
      Except.error (Thrown.error ("Unknown Telegram tool: " ++ req.name))

/-- The error envelope produced by the catch block (lines 216–228):
one text block holding the serialized `{error: message}` object. -/
def errorEnvelope (message : String) : CallToolResult :=
  { content :=
      [{ type := "text"
       , text := Json.stringify (Json.obj [("error", Json.str message)]) }] }

/-- The complete call-tool handler (lines 176–230): the body's result
wrapped as a single text block on success, every thrown value caught
and rendered through `errorEnvelope`.  Being a total function, it
never terminates the process. -/
def handleCallTool (api : TelegramApi) (req : CallToolParams) : CallToolResult :=
  match callToolBody api req with
  | Except.ok response =>
      { content := [{ type := "text", text := Json.stringify response }] }
  | Except.error e => errorEnvelope e.toMessage

/-- A tool descriptor (`Tool` from the protocol SDK): name,
description and the JSON input schema, kept as a JSON value. -/
structure ToolDescriptor where
  name : String
  description : String
  inputSchema : Json

/-- The `sendMessageTool` descriptor (lines 32–56), transcribed
field-for-field: note the stray boolean `required` inside the
`chat_id` property and the trailing space in the `"MarkdownV2 "` enum
entry, both present in the source. -/
def sendMessageTool : ToolDescriptor :=
  { name := "telegram_send_message"
  , description := "Sends a text message"
  , inputSchema := Json.obj
      [ ("type", Json.str "object")
      , ("properties", Json.obj
          [ ("chat_id", Json.obj
              [ ("type", Json.str "string")
              , ("required", Json.bool true)
              , ("description", Json.str
                  "Unique identifier for the target chat or username of the target channel (in the format @channelusername)") ])
          , ("text", Json.obj
              [ ("type", Json.str "string")
              , ("description", Json.str "Text of the message to be sent") ])
          , ("parse_mode", Json.obj
              [ ("type", Json.str "string")
              , ("description", Json.str "Mode for parsing entities in the message text")
              , ("enum", Json.arr [Json.str "MarkdownV2 ", Json.str "HTML"]) ]) ])
      , ("required", Json.arr [Json.str "chat_id", Json.str "text"]) ] }

/-- The `setMessageReactionTool` descriptor (lines 58–94).  The
`emoji` enum is `REACTION_EMOJIS`, imported from `./types.js`, which
is not among the available sources; it is taken as a parameter. -/
def setMessageReactionTool (reactionEmojis : List String) : ToolDescriptor :=
  { name := "telegram_set_message_reaction"
  , description := "Sets or updates a reaction to a message"
  , inputSchema := Json.obj
      [ ("type", Json.str "object")
      , ("properties", Json.obj
          [ ("chat_id", Json.obj
              [ ("type", Json.str "string")
              , ("description", Json.str
                  "Unique identifier for the target chat or username of the target channel (in the format @channelusername)") ])
          , ("message_id", Json.obj
              [ ("type", Json.str "number")
              , ("description", Json.str "Identifier of the target message") ])
          , ("reaction", Json.obj
              [ ("type", Json.str "object")
              , ("properties", Json.obj
                  [ ("type", Json.obj
                      [ ("type", Json.str "string")
                      , ("enum", Json.arr [Json.str "emoji"]) ])
                  , ("emoji", Json.obj
                      [ ("type", Json.str "string")
                      , ("enum", Json.arr (reactionEmojis.map Json.str)) ]) ])
              , ("description", Json.str "Reaction to set") ])
          , ("is_big", Json.obj
              [ ("type", Json.str "boolean")
              , ("description", Json.str "Pass `true` to set the reaction with a big animation") ]) ])
      , ("required", Json.arr [Json.str "chat_id", Json.str "message_id"]) ] }

/-- The list-tools handler (lines 232–239): the static registry, in
source order. -/
def listTools (reactionEmojis : List String) : List ToolDescriptor :=
  [sendMessageTool, setMessageReactionTool reactionEmojis]

/-- An oracle whose calls always resolve successfully, for concrete
instantiations. -/
def okApi : TelegramApi :=
  { sendMessage := fun _ _ _ => Except.ok (Json.obj [("ok", Json.bool true)])
  , setMessageReaction := fun _ _ _ _ => Except.ok (Json.obj [("ok", Json.bool true)]) }

/-- An oracle whose calls always throw, for concrete instantiations of
the error path. -/
def failingApi : TelegramApi :=
  { sendMessage := fun _ _ _ => Except.error (Thrown.error "Bad Request: chat not found")
  , setMessageReaction := fun _ _ _ _ => Except.error (Thrown.other "boom") }

/-- Claim C1: whenever the call-tool handler body throws — the
missing-arguments error, the unknown-tool error, or anything thrown by
the API client — the dispatcher catches it and returns a response
whose single text content block is the JSON serialization of
`{error: message}` (the Error's message, or the thrown value
stringified).  `handleCallTool` is a total function, so this path
never terminates the process. -/
theorem handleCallTool_catches_thrown (api : TelegramApi) (req : CallToolParams)
    (e : Thrown) (h : callToolBody api req = Except.error e) :
    handleCallTool api req =
      { content :=
          [{ type := "text"
           , text := Json.stringify (Json.obj [("error", Json.str e.toMessage)]) }] } := by
  unfold handleCallTool
  rw [h]
  rfl

/-- Witness for C1: a concrete request against an API client whose
call throws an Error with message "Bad Request: chat not found". -/
theorem handleCallTool_catches_thrown_witness :
    handleCallTool failingApi { name := "telegram_send_message", arguments := some {} } =
      { content :=
          [{ type := "text"
           , text := Json.stringify
               (Json.obj [("error", Json.str "Bad Request: chat not found")]) }] } :=
  handleCallTool_catches_thrown failingApi
    { name := "telegram_send_message", arguments := some {} }
    (Thrown.error "Bad Request: chat not found") rfl

/-- Claim C2: a call-tool request with arguments present and a tool
name other than the two known tools never escapes the handler as an
exception; the result is exactly one text block holding the JSON
serialization of `{"error":"Unknown Telegram tool: <name>"}`. -/
theorem handleCallTool_unknown_tool (api : TelegramApi) (bag : ArgBag) (name : String)
    (h1 : name ≠ "telegram_send_message")
    (h2 : name ≠ "telegram_set_message_reaction") :
    handleCallTool api { name := name, arguments := some bag } =
      { content :=
          [{ type := "text"
           , text := Json.stringify
               (Json.obj [("error", Json.str ("Unknown Telegram tool: " ++ name))]) }] } := by
  unfold handleCallTool callToolBody
  simp [h1, h2, errorEnvelope, Thrown.toMessage]

/-- Witness for C2: the unknown tool name "foo". -/
theorem handleCallTool_unknown_tool_witness :
    handleCallTool okApi { name := "foo", arguments := some {} } =
      { content :=
          [{ type := "text"
           , text := Json.stringify
               (Json.obj [("error", Json.str ("Unknown Telegram tool: " ++ "foo"))]) }] } :=
  handleCallTool_unknown_tool okApi {} "foo" (by decide) (by decide)

/-- Claim C3: a call-tool request with no argument bag yields an error
envelope — a single text content block — whose serialized error object
carries the message "No arguments provided"; the handler is total, so
the process does not crash. -/
theorem handleCallTool_no_arguments (api : TelegramApi) (name : String) :
    handleCallTool api { name := name, arguments := none } =
      { content :=
          [{ type := "text"
           , text := Json.stringify
               (Json.obj [("error", Json.str "No arguments provided")]) }] } := rfl

/-- Claim C4: the outbound form built by `sendMessage` holds exactly
the keys `chat_id` and `text`, plus `parse_mode` iff a parse mode was
provided; in particular for chat `@chan` and text `hi` with no parse
mode it is `chat_id=@chan&text=hi` with no `parse_mode` key. -/
theorem sendMessage_form_exact (chat_id text : String) (pm : Option ParseMode) :
    TelegramClient.sendMessage chat_id text pm =
      [("chat_id", chat_id), ("text", text)] ++
        (match pm with
         | some p => [("parse_mode", p.toString)]
         | none => []) ∧
    (TelegramClient.sendMessage chat_id text pm).map Prod.fst =
      (if pm.isSome then ["chat_id", "text", "parse_mode"] else ["chat_id", "text"]) ∧
    TelegramClient.sendMessage "@chan" "hi" none = [("chat_id", "@chan"), ("text", "hi")] := by
  refine ⟨?_, ?_, rfl⟩ <;> cases pm <;> simp [TelegramClient.sendMessage]

/-- Claim C5: the form built by `setMessageReaction` transmits
`message_id` as its decimal string, and a provided reaction is sent
under the `reaction` key as the JSON serialization of
`{"reaction": {"type":"emoji", "emoji":<value>}}`. -/
theorem setMessageReaction_payload_shape (chat_id : String) (message_id : Int)
    (r : ReactionTypeEmoji) (is_big : Option Bool) :
    TelegramClient.setMessageReaction chat_id message_id (some r) is_big =
      [("chat_id", chat_id), ("message_id", toString message_id),
       ("reaction", Json.stringify (Json.obj [("reaction",
          Json.obj [("type", Json.str "emoji"), ("emoji", Json.str r.emoji)])]))] ++
        (if isTruthy is_big then [("is_big", "True")] else []) ∧
    TelegramClient.setMessageReaction chat_id message_id none is_big =
      [("chat_id", chat_id), ("message_id", toString message_id)] ++
        (if isTruthy is_big then [("is_big", "True")] else []) := by
  constructor <;> rcases is_big with _ | (_ | _) <;>
    simp [TelegramClient.setMessageReaction, ReactionTypeEmoji.toJson, isTruthy]

/-- Counterexample to C6 as stated: with `is_big` present but false,
the form contains no `is_big` key at all — in particular not
`("is_big", "False")`. -/
theorem setMessageReaction_is_big_false_cex :
    TelegramClient.setMessageReaction "123" 45 none (some false) =
      [("chat_id", "123"), ("message_id", "45")] ∧
    ("is_big", "False") ∉ TelegramClient.setMessageReaction "123" 45 none (some false) ∧
    ("is_big", "True") ∉ TelegramClient.setMessageReaction "123" 45 none (some false) := by
  decide

/-- Claim C6 (amended): the guard tests JavaScript truthiness, so the
form contains `is_big="True"` when the argument is `true`, and omits
the `is_big` key entirely when the argument is `false` or absent; the
value "False" is never transmitted. -/
theorem setMessageReaction_is_big_truthy_guard (chat_id : String) (message_id : Int)
    (r : Option ReactionTypeEmoji) (is_big : Option Bool) :
    (is_big = some true →
      TelegramClient.setMessageReaction chat_id message_id r is_big =
        TelegramClient.setMessageReaction chat_id message_id r none ++ [("is_big", "True")]) ∧
    (is_big ≠ some true →
      TelegramClient.setMessageReaction chat_id message_id r is_big =
        TelegramClient.setMessageReaction chat_id message_id r none) ∧
    (∀ v, ("is_big", v) ∉ TelegramClient.setMessageReaction chat_id message_id r none) := by
  refine ⟨?_, ?_, ?_⟩
  · rintro rfl
    rcases r <;> simp [TelegramClient.setMessageReaction, isTruthy]
  · intro h
    rcases is_big with _ | (_ | _) <;>
      simp_all [TelegramClient.setMessageReaction, isTruthy]
  · intro v
    rcases r <;> simp [TelegramClient.setMessageReaction, isTruthy]

/-- Witness for the amended C6: with `is_big = false` the form equals
the form built with `is_big` absent. -/
theorem setMessageReaction_is_big_truthy_guard_witness :
    TelegramClient.setMessageReaction "123" 45 none (some false) =
      TelegramClient.setMessageReaction "123" 45 none none :=
  (setMessageReaction_is_big_truthy_guard "123" 45 none (some false)).2.1 (by decide)

/-- Claim C10: across all `setMessageReaction` calls, the entries of
the form under the key `is_big` are exactly `[("is_big", "True")]`
when the argument is `true` and empty otherwise — the "False" branch
of the ternary is unreachable and "False" is never transmitted. -/
theorem setMessageReaction_is_big_filter (chat_id : String) (message_id : Int)
    (r : Option ReactionTypeEmoji) (is_big : Option Bool) :
    (TelegramClient.setMessageReaction chat_id message_id r is_big).filter
        (fun p => p.1 == "is_big") =
      (if is_big = some true then [("is_big", "True")] else []) := by
  rcases is_big with _ | (_ | _) <;> rcases r <;> rfl

/-- Claim C7 (defect record): listing tools does return exactly two
descriptors named `telegram_send_message` and
`telegram_set_message_reaction` in that order, but the first
descriptor's schema is not consistent with the arguments the tool
accepts: its `parse_mode` enum declares `"MarkdownV2 "` with a
trailing space, differing from the `"MarkdownV2"` of the TypeScript
union, and its `chat_id` property carries a boolean `required`
keyword where JSON Schema requires an array of field names. -/
theorem listTools_descriptor_defects (reactionEmojis : List String) :
    (listTools reactionEmojis).map ToolDescriptor.name =
      ["telegram_send_message", "telegram_set_message_reaction"] ∧
    (listTools reactionEmojis).length = 2 ∧
    (((sendMessageTool.inputSchema.getField "properties").bind
        (fun p => p.getField "parse_mode")).bind (fun p => p.getField "enum")) =
      some (Json.arr [Json.str "MarkdownV2 ", Json.str "HTML"]) ∧
    "MarkdownV2 " ≠ ParseMode.toString ParseMode.markdownV2 ∧
    (((sendMessageTool.inputSchema.getField "properties").bind
        (fun p => p.getField "chat_id")).bind (fun p => p.getField "required")) =
      some (Json.bool true) := by
  exact ⟨rfl, rfl, rfl, by decide, rfl⟩

/-- Claim C8: every call-tool response, on the success and the error
path alike, consists of exactly one content block, of type "text",
whose text is the serialization of some JSON value — the raw API
response verbatim or the error object. -/
theorem handleCallTool_single_text_block (api : TelegramApi) (req : CallToolParams) :
    ∃ j : Json, handleCallTool api req =
      { content := [{ type := "text", text := Json.stringify j }] } := by
  unfold handleCallTool
  cases h : callToolBody api req with
  | ok r => exact ⟨r, rfl⟩
  | error e => exact ⟨Json.obj [("error", Json.str e.toMessage)], rfl⟩

/-- Claim C9: the missing-arguments check precedes tool-name dispatch —
with no argument bag, the body throws "No arguments provided" whatever
the requested name, the envelope carries that message, and that thrown
error is distinct from the unknown-tool error for the same name. -/
theorem no_arguments_precedes_dispatch (api : TelegramApi) (name : String) :
    callToolBody api { name := name, arguments := none } =
      Except.error (Thrown.error "No arguments provided") ∧
    handleCallTool api { name := name, arguments := none } =
      errorEnvelope "No arguments provided" ∧
    Thrown.error "No arguments provided" ≠
      Thrown.error ("Unknown Telegram tool: " ++ name) := by
  refine ⟨rfl, rfl, ?_⟩
  intro h
  have h2 : "No arguments provided" = "Unknown Telegram tool: " ++ name := by
    injection h
  have hlen := congrArg String.length h2
  rw [String.length_append] at hlen
  have e1 : ("No arguments provided" : String).length = 21 := by decide
  have e2 : ("Unknown Telegram tool: " : String).length = 23 := by decide
  rw [e1, e2] at hlen
  omega
